import Mathlib

/-!
Shallow embedding of the authentication subsystem of the
SmoothTransact billing backend (src/src/auth/auth.service.ts), together
with proofs of the spec claims about it.

Opaque external collaborators (the bcrypt library, the JWT library, the
TOTP generator, the Redis cache and the ORM-backed user store) are
modelled as explicit Lean data:
* bcrypt hashes are pairs of a fresh salt and the hashed input (the
  library's output string is an injective encoding of exactly that data);
* signed JWTs are records of the payload, the signing secret, the
  expiresIn option and the issued-at instant (the serialized token string
  is an injective encoding of that data, and decoding recovers the payload);
* the TOTP code for a secret is determined by the secret and the
  300-second time window containing the generation instant;
* the cache is a list of key/value entries with absolute expiry instants
  plus set-membership pairs;
* the user store is a list of user records (the UsersService itself is
  not part of the sources; its findByEmail/findOne/create/update contract
  is modelled from the spec, section 6).
All state-changing operations thread an explicit `AppState` and log the
store lookups they perform in a trace, so that "no lookup occurs" claims
are statable.
-/

namespace SmoothTransact

/-- Error taxonomy of the service: NestJS ConflictException,
NotFoundException and InternalServerErrorException, plus plain JS
runtime failures (a thrown `Error`, and a TypeError from dereferencing
null/undefined). -/
inductive Err where
  | conflict (msg : String)
  | notFound (msg : String)
  | internal
  | jsError (msg : String)
  | typeError
  deriving DecidableEq, Repr

instance instDecEqExceptErr {ε α : Type} [DecidableEq ε] [DecidableEq α] :
    DecidableEq (Except ε α) := fun a b =>
  match a, b with
  | .ok x, .ok y => if h : x = y then .isTrue (by rw [h]) else .isFalse (by simp [h])
  | .error x, .error y => if h : x = y then .isTrue (by rw [h]) else .isFalse (by simp [h])
  | .ok _, .error _ => .isFalse (by simp)
  | .error _, .ok _ => .isFalse (by simp)

/-- JWT payload as built by `getTokens`: `{ sub: user.id, role: user.role }`. -/
structure Payload where
  sub : Nat
  role : String
  deriving DecidableEq, Repr

/-- Signed JWT, modelled as the data its serialized string injectively
encodes: payload, signing secret, expiresIn option and issued-at time. -/
structure Token where
  sub : Nat
  role : String
  secret : String
  expiresIn : String
  iat : Nat
  deriving DecidableEq, Repr

/-- Result of `bcrypt.hash(password, salt)` for a string input: the
output string encodes the fresh salt and the input. -/
structure PHash where
  salt : Nat
  input : String
  deriving DecidableEq, Repr

/-- Result of `bcrypt.hash(refreshToken, 10)`: the output string encodes
the fresh salt and the hashed token. -/
structure RHash where
  salt : Nat
  token : Token
  deriving DecidableEq, Repr

/-- User credential record (src/users entity, per the spec data model):
id, email, hashed password (nullable after scrubbing), role, hashed
refresh token (nullable). -/
structure User where
  id : Nat
  email : String
  password : Option PHash
  role : String
  refreshToken : Option RHash
  deriving DecidableEq, Repr

/-- CreateUserDto: the signup candidate. -/
structure CreateUserDto where
  email : String
  password : String
  role : String
  deriving DecidableEq, Repr

/-- Partial update passed to `usersService.update(id, partial)`: each
field is `none` when absent from the partial, `some v` when present with
value `v` (where `v` itself may be the JS `null`, i.e. `none`). -/
structure UserPatch where
  password : Option (Option PHash) := none
  refreshToken : Option (Option RHash) := none
  deriving DecidableEq, Repr

/-- Configuration surface read through configService.get. -/
structure Config where
  access_secret : String
  access_expiresIn : String
  refresh_secret : String
  refresh_expiresIn : String
  otp_secret : String
  env : String
  deriving DecidableEq, Repr

/-- Ephemeral cache: key/value entries carrying an absolute expiry
instant, plus (setName, member) pairs for the revoked-token set. -/
structure Cache where
  entries : List (String × String × Nat)
  members : List (String × Token)
  deriving DecidableEq, Repr

/-- Events logged by the model so that claims about which collaborator
calls happen (for example that no store lookup precedes email
validation) can be stated. -/
inductive Event where
  | lookupEmail (e : String)
  | lookupId (id : Nat)
  | storeCreate (id : Nat)
  | storeUpdate (id : Nat)
  | cacheRead (k : String)
  | cacheWrite (k : String)
  deriving DecidableEq, Repr

/-- Whole-service state threaded through the operations. -/
structure AppState where
  users : List User
  nextId : Nat
  nextSalt : Nat
  cache : Cache
  cfg : Config
  trace : List Event
  deriving DecidableEq, Repr

/-! ## Email validation (the regex of `validateEmail`)

The source tests the raw input against
`^[a-z0-9._%+-]+@[a-z0-9.-]+\.[a-z]{2,4}$`.  Matching this anchored
pattern is exactly the existence of a decomposition
`local ++ "@" ++ domain ++ "." ++ tld` with the three parts drawn from
the indicated character classes, since `@` occurs in none of the
classes. -/

/-- Membership in the class `[a-z]`: code points 97 to 122. -/
def isLowerAlpha (c : Char) : Bool := 97 ≤ c.toNat && c.toNat ≤ 122

/-- Membership in the class `[A-Z]`: code points 65 to 90 (never part of
the pattern; used to state claims about uppercase input). -/
def isUpperAlpha (c : Char) : Bool := 65 ≤ c.toNat && c.toNat ≤ 90

/-- Membership in the class `[0-9]`: code points 48 to 57. -/
def isDigitCh (c : Char) : Bool := 48 ≤ c.toNat && c.toNat ≤ 57

def isLocalChar (c : Char) : Bool :=
  isLowerAlpha c || isDigitCh c || c == '.' || c == '_' || c == '%' || c == '+' || c == '-'

def isDomainChar (c : Char) : Bool :=
  isLowerAlpha c || isDigitCh c || c == '.' || c == '-'

def localOk (cs : List Char) : Bool := !cs.isEmpty && cs.all isLocalChar

def tldOk (cs : List Char) : Bool :=
  decide (2 ≤ cs.length) && decide (cs.length ≤ 4) && cs.all isLowerAlpha

def domainOk (cs : List Char) : Bool := !cs.isEmpty && cs.all isDomainChar

/-- Matching of `[a-z0-9.-]+\.[a-z]{2,4}$` against the part after `@`:
some split at a dot gives a domain and a tld. -/
def restOk (cs : List Char) : Bool :=
  (List.range cs.length).any fun i =>
    cs.get? i == some '.' && domainOk (cs.take i) && tldOk (cs.drop (i + 1))

/-- Matching of the whole email regex: some split at `@` gives a local
part and a rest. -/
def emailMatches (email : String) : Bool :=
  let cs := email.data
  (List.range cs.length).any fun i =>
    cs.get? i == some '@' && localOk (cs.take i) && restOk (cs.drop (i + 1))

/-- Source `validateEmail`: throws NotFoundException('Invalid email')
when the regex does not match. -/
def validateEmail (email : String) : Except Err Unit :=
  if emailMatches email then .ok () else .error (.notFound "Invalid email")

/-- JS `String.prototype.toLowerCase` for the ASCII emails handled here,
written over the character list so that it evaluates by kernel
reduction. -/
def toLowerCase (s : String) : String := String.mk (s.data.map Char.toLower)

/-! ## Opaque collaborator models -/

/-- Rendering of a bcrypt password hash back to the string stored in the
password column; used only to state that the stored string is not the
plaintext password. -/
def PHash.render (h : PHash) : String :=
  "bcrypt$" ++ toString h.salt ++ "$" ++ h.input

/-- bcrypt.compare for passwords: re-hash the candidate with the salt
carried by the stored hash and compare. -/
def bcryptCompare (password : String) (h : PHash) : Bool :=
  h.input == password

/-- bcrypt.compare of a presented refresh token against the stored
refresh-token hash. -/
def bcryptCompareToken (t : Token) (h : RHash) : Bool :=
  h.token == t

/-- jwtService.sign: issue a token over the payload with the given
secret/expiresIn at instant `now` (the library stamps iat). -/
def jwtSign (p : Payload) (secret expiresIn : String) (now : Nat) : Token :=
  { sub := p.sub, role := p.role, secret := secret, expiresIn := expiresIn, iat := now }

/-- jwtService.decode: decoding (without verification) recovers the
payload of a well-formed token. -/
def jwtDecode (t : Token) : Option Payload :=
  some { sub := t.sub, role := t.role }

/-- totp.generate with options `{ digits: 6, step: 300 }`: the code is
determined by the secret and the 300-second window of the instant. -/
def totpGenerate (secret : String) (now : Nat) : String :=
  "totp$" ++ secret ++ "$" ++ toString (now / 300)

/-- totp.check with the same options: the candidate must equal the code
of the current window. -/
def totpCheck (otp secret : String) (now : Nat) : Bool :=
  otp == totpGenerate secret now

/-! ## Cache primitives (RedisClient contract, spec section 6) -/

def Cache.get (c : Cache) (k : String) (now : Nat) : Option String :=
  (c.entries.find? fun e => e.1 == k && decide (now < e.2.2)).map (·.2.1)

def Cache.existsKey (c : Cache) (k : String) (now : Nat) : Bool :=
  (c.entries.find? fun e => e.1 == k && decide (now < e.2.2)).isSome

def Cache.set (c : Cache) (k v : String) (ttl now : Nat) : Cache :=
  { c with entries := (k, v, now + ttl) :: c.entries.filter fun e => e.1 != k }

def Cache.del (c : Cache) (k : String) : Cache :=
  { c with entries := c.entries.filter fun e => e.1 != k }

def Cache.sadd (c : Cache) (s : String) (m : Token) : Cache :=
  { c with members := (s, m) :: c.members }

def Cache.sismember (c : Cache) (s : String) (m : Token) : Bool :=
  c.members.contains (s, m)

/-! ## Credential store (UsersService contract, spec section 6)

Modelled from the spec: the UsersService implementation is not among the
sources; section 6 gives `findByEmail(email) -> User|null`,
`findOne(id) -> User|null`, `create(data) -> User`,
`update(id, partial) -> User` (the updated record). -/

def usersFindByEmail (st : AppState) (email : String) : Option User × AppState :=
  (st.users.find? fun u => u.email == email,
   { st with trace := st.trace ++ [.lookupEmail email] })

def usersFindOne (st : AppState) (id : Nat) : Option User × AppState :=
  (st.users.find? fun u => u.id == id,
   { st with trace := st.trace ++ [.lookupId id] })

def usersCreate (st : AppState) (email : String) (password : Option PHash)
    (role : String) : User × AppState :=
  let u : User := { id := st.nextId, email := email, password := password,
                    role := role, refreshToken := none }
  (u, { st with users := st.users ++ [u], nextId := st.nextId + 1,
                trace := st.trace ++ [.storeCreate u.id] })

def applyPatch (u : User) (p : UserPatch) : User :=
  { u with password := p.password.getD u.password,
           refreshToken := p.refreshToken.getD u.refreshToken }

def usersUpdate (st : AppState) (id : Nat) (p : UserPatch) :
    Option User × AppState :=
  match st.users.find? fun u => u.id == id with
  | none => (none, { st with trace := st.trace ++ [.storeUpdate id] })
  | some w =>
    let w' := applyPatch w p
    (some w',
     { st with users := st.users.map fun v => if v.id == id then w' else v,
               trace := st.trace ++ [.storeUpdate id] })

/-! ## AuthService operations (src/src/auth/auth.service.ts) -/

/-- hashPassword: throws `Error` on a falsy password, otherwise
bcrypt-hashes with a fresh salt (genSalt consumes the salt counter). -/
def hashPassword (st : AppState) (password : String) :
    Except Err PHash × AppState :=
  if password == "" then
    (.error (.jsError "Password is required for hashing."), st)
  else
    (.ok { salt := st.nextSalt, input := password },
     { st with nextSalt := st.nextSalt + 1 })

/-- comparePassword: bcrypt.compare of plaintext against stored hash. -/
def comparePassword (password : String) (hashedPassword : PHash) : Bool :=
  bcryptCompare password hashedPassword

/-- signup: ConflictException when the email is taken, otherwise hash
the password, create the record, and return it with the password field
set to undefined on the returned object only. -/
def signup (st : AppState) (user : CreateUserDto) : Except Err User × AppState :=
  let (userExists, st₁) := usersFindByEmail st user.email
  match userExists with
  | some _ => (.error (.conflict "User already exists"), st₁)
  | none =>
    match hashPassword st₁ user.password with
    | (.error e, st₂) => (.error e, st₂)
    | (.ok h, st₂) =>
      let (newUser, st₃) := usersCreate st₂ user.email (some h) user.role
      (.ok { newUser with password := none }, st₃)

def getTokenOption (cfg : Config) (type : String) : String × String :=
  if type == "access" then (cfg.access_secret, cfg.access_expiresIn)
  else if type == "refresh" then (cfg.refresh_secret, cfg.refresh_expiresIn)
  else ("", "")

/-- getTokens: sign an access token and a refresh token over
`{ sub: user.id, role: user.role }` with the per-type options. -/
def getTokens (cfg : Config) (id : Nat) (role : String) (now : Nat) :
    Token × Token :=
  let payload : Payload := { sub := id, role := role }
  let a := getTokenOption cfg "access"
  let r := getTokenOption cfg "refresh"
  (jwtSign payload a.1 a.2 now, jwtSign payload r.1 r.2 now)

/-- Serialized cookie directive produced by `setCookies`. -/
structure CookieDirective where
  name : String
  value : Token
  httpOnly : Bool
  secure : Bool
  sameSite : Bool
  maxAge : Nat
  path : String
  deriving DecidableEq, Repr

def setCookies (cfg : Config) (token : Token) : CookieDirective :=
  { name := "Bearer", value := token, httpOnly := true,
    secure := cfg.env == "production", sameSite := true,
    maxAge := 3600, path := "/" }

/-- setCurrentRefreshToken: bcrypt-hash the refresh token with a fresh
salt and overwrite the user record's refreshToken column. -/
def setCurrentRefreshToken (st : AppState) (refreshToken : Token)
    (userId : Nat) : AppState :=
  let h : RHash := { salt := st.nextSalt, token := refreshToken }
  let st₁ := { st with nextSalt := st.nextSalt + 1 }
  (usersUpdate st₁ userId { refreshToken := some (some h) }).2

/-- Result of signin: both raw tokens plus the cookie directive. -/
structure SigninResult where
  accessToken : Token
  refreshToken : Token
  cookie : CookieDirective
  deriving DecidableEq, Repr

/-- signin: issue the pair, serialize the access-token cookie, persist
the refresh-token hash. -/
def signin (st : AppState) (id : Nat) (role : String) (now : Nat) :
    SigninResult × AppState :=
  let (accessToken, refreshToken) := getTokens st.cfg id role now
  let cookieSerialized := setCookies st.cfg accessToken
  let st₁ := setCurrentRefreshToken st refreshToken id
  ({ accessToken := accessToken, refreshToken := refreshToken,
     cookie := cookieSerialized }, st₁)

/-- Shape of the `reqUser` argument of signout after the JSON
round-trip: the code destructures a `user` property out of it. `none`
for the whole argument models a missing/undefined `reqUser` (on which
`JSON.parse(JSON.stringify(reqUser))` itself throws). -/
structure ReqUser where
  user : Option User
  deriving DecidableEq, Repr

def revokeToken (st : AppState) (tokenId : Token) : AppState :=
  { st with cache := st.cache.sadd "revokedToken" tokenId }

def isTokenRevoked (st : AppState) (tokenId : Token) : Bool :=
  st.cache.sismember "revokedToken" tokenId

/-- signout: the whole body runs in a try/catch whose catch throws
InternalServerErrorException, so every internal failure (the
NotFoundException of the missing-user/token guard included) reaches the
caller as `internal`. -/
def signout (st : AppState) (reqUser : Option ReqUser) (token : Option Token) :
    Except Err Bool × AppState :=
  let inner : Except Err Bool × AppState :=
    match reqUser with
    | none => (.error .typeError, st)
    | some r =>
      match r.user, token with
      | some u, some tk =>
        let (_, st₁) := usersUpdate st u.id { refreshToken := some none }
        let st₂ := revokeToken st₁ tk
        (.ok true, st₂)
      | _, _ => (.error (.notFound "User not found"), st)
  match inner with
  | (.ok v, st') => (.ok v, st')
  | (.error _, st') => (.error .internal, st')

def generateResetPasswordOtp (cfg : Config) (now : Nat) : String :=
  totpGenerate cfg.otp_secret now

/-- forgotPassword: validate the raw email, look up the lowercased
email, generate a TOTP code, clear any prior cached OTP for the user and
store the new one with a 300-second TTL. -/
def forgotPassword (st : AppState) (email : String) (now : Nat) :
    Except Err String × AppState :=
  match validateEmail email with
  | .error e => (.error e, st)
  | .ok _ =>
    let (userOpt, st₁) := usersFindByEmail st (toLowerCase email)
    match userOpt with
    | none => (.error (.notFound "User not found"), st₁)
    | some user =>
      let otp := generateResetPasswordOtp st₁.cfg now
      let otpKey := toString user.id ++ ":otp"
      let c₀ := st₁.cache
      let c₁ := if c₀.existsKey otpKey now then c₀.del otpKey else c₀
      let c₂ := c₁.set otpKey otp 300 now
      (.ok otp,
       { st₁ with cache := c₂,
                  trace := st₁.trace ++ [.cacheRead otpKey, .cacheWrite otpKey] })

/-- verifyResetPasswordOtp: the candidate must pass the time-window
check AND equal the cached value; on success the cached entry is
deleted. -/
def verifyResetPasswordOtp (st : AppState) (otp : String) (userId : Nat)
    (now : Nat) : Except Err Unit × AppState :=
  let isValid := totpCheck otp st.cfg.otp_secret now
  if !isValid then
    (.error (.notFound "Invalid OTP or OTP has expired"), st)
  else
    let otpKey := toString userId ++ ":otp"
    let otpCached := st.cache.get otpKey now
    let st₁ := { st with trace := st.trace ++ [.cacheRead otpKey] }
    if otpCached ≠ some otp then
      (.error (.notFound "Invalid OTP"), st₁)
    else
      (.ok (), { st₁ with cache := st₁.cache.del otpKey,
                          trace := st₁.trace ++ [.cacheWrite otpKey] })

/-- resetPassword: validate the raw email, look up the lowercased email
WITHOUT a null check (an absent user makes the `user.id` argument
expression of verifyResetPasswordOtp dereference null, a TypeError),
verify and consume the OTP, then overwrite the password hash, returning
the updated record as the store hands it back. -/
def resetPassword (st : AppState) (email otp newPassword : String)
    (now : Nat) : Except Err User × AppState :=
  match validateEmail email with
  | .error e => (.error e, st)
  | .ok _ =>
    let (userOpt, st₁) := usersFindByEmail st (toLowerCase email)
    match userOpt with
    | none => (.error .typeError, st₁)
    | some user =>
      match verifyResetPasswordOtp st₁ otp user.id now with
      | (.error e, st₂) => (.error e, st₂)
      | (.ok _, st₂) =>
        match hashPassword st₂ newPassword with
        | (.error e, st₃) => (.error e, st₃)
        | (.ok h, st₃) =>
          match usersUpdate st₃ user.id { password := some (some h) } with
          | (some u, st₄) => (.ok u, st₄)
          | (none, st₄) => (.error .typeError, st₄)

/-- validateUser: look up by email, bcrypt-compare, scrub the password
field of the returned record. -/
def validateUser (st : AppState) (email password : String) :
    Option User × AppState :=
  let (userOpt, st₁) := usersFindByEmail st email
  match userOpt with
  | some u =>
    match u.password with
    | some h =>
      if comparePassword password h then (some { u with password := none }, st₁)
      else (none, st₁)
    | none => (none, st₁)
  | none => (none, st₁)

/-- createAccessTokenFromRefreshToken: decode, look up the subject,
bcrypt-compare against the stored refresh-token hash, and on success
issue a fresh access token only; a surrounding try/catch converts every
failure into NotFoundException('Invalid token'). A null stored hash
makes bcrypt.compare itself throw, which the catch also converts. -/
def createAccessTokenFromRefreshToken (st : AppState) (refreshToken : Token)
    (now : Nat) : Except Err Token × AppState :=
  let inner : Except Err Token × AppState :=
    match jwtDecode refreshToken with
    | none => (.error (.notFound "Invalid token"), st)
    | some decoded =>
      let (userOpt, st₁) := usersFindOne st decoded.sub
      match userOpt with
      | none => (.error (.notFound "User not found"), st₁)
      | some user =>
        match user.refreshToken with
        | none => (.error .typeError, st₁)
        | some rh =>
          if !(bcryptCompareToken refreshToken rh) then
            (.error (.notFound "Invalid token"), st₁)
          else
            let (accessToken, _) := getTokens st₁.cfg user.id user.role now
            (.ok accessToken, st₁)
  match inner with
  | (.ok v, st') => (.ok v, st')
  | (.error _, st') => (.error (.notFound "Invalid token"), st')

/-! ## Concrete fixtures used by the witness theorems -/

def sampleCfg : Config :=
  { access_secret := "as", access_expiresIn := "900s",
    refresh_secret := "rs", refresh_expiresIn := "7d",
    otp_secret := "os", env := "test" }

def sampleUser : User :=
  { id := 1, email := "user@example.com",
    password := some { salt := 0, input := "pw" },
    role := "user", refreshToken := none }

def sampleState : AppState :=
  { users := [sampleUser], nextId := 2, nextSalt := 1,
    cache := { entries := [], members := [] }, cfg := sampleCfg, trace := [] }

def sampleToken : Token := jwtSign { sub := 1, role := "user" } "as" "900s" 0

/-! ## Helper lemmas about the store -/

lemma applyPatch_id (u : User) (p : UserPatch) : (applyPatch u p).id = u.id := rfl

lemma applyPatch_email (u : User) (p : UserPatch) :
    (applyPatch u p).email = u.email := rfl

lemma find_id_map_update (l : List User) (id : Nat) (w' : User)
    (hw : (w'.id == id) = true) (w : User)
    (h : l.find? (fun u => u.id == id) = some w) :
    (l.map fun v => if v.id == id then w' else v).find? (fun u => u.id == id)
      = some w' := by
  induction l with
  | nil => simp at h
  | cons a l ih =>
    by_cases ha : (a.id == id) = true
    · simp [List.find?, ha, hw]
    · have ha' : (a.id == id) = false := by simpa using ha
      simp only [List.map_cons, List.find?, ha', Bool.false_eq_true, if_false] at h ⊢
      exact ih h

lemma usersUpdate_found (st : AppState) (id : Nat) (p : UserPatch) (w : User)
    (h : st.users.find? (fun u => u.id == id) = some w) :
    usersUpdate st id p =
      (some (applyPatch w p),
       { st with users := st.users.map fun v =>
                   if v.id == id then applyPatch w p else v,
                 trace := st.trace ++ [.storeUpdate id] }) := by
  unfold usersUpdate
  rw [h]

lemma usersUpdate_frame (st : AppState) (id : Nat) (p : UserPatch) :
    (usersUpdate st id p).2.cfg = st.cfg ∧
    (usersUpdate st id p).2.cache = st.cache ∧
    (usersUpdate st id p).2.nextSalt = st.nextSalt := by
  unfold usersUpdate
  cases h : st.users.find? fun u => u.id == id <;> simp

lemma find_email_mem (l : List User) (e : String) (u : User)
    (h : l.find? (fun v => v.email == e) = some u) : u ∈ l :=
  List.mem_of_find?_eq_some h

lemma find_id_exists_of_mem (l : List User) (u : User) (hu : u ∈ l) :
    ∃ w, l.find? (fun v => v.id == u.id) = some w := by
  have : (l.find? fun v => v.id == u.id).isSome := by
    rw [List.find?_isSome]
    exact ⟨u, hu, by simp⟩
  exact Option.isSome_iff_exists.mp this

/-! ## Helper lemmas about signin and refresh -/

lemma setCurrentRefreshToken_spec (st : AppState) (rt : Token) (id : Nat)
    (w : User) (h : st.users.find? (fun u => u.id == id) = some w) :
    (setCurrentRefreshToken st rt id).users.find? (fun u => u.id == id)
      = some (applyPatch w { refreshToken := some (some
          { salt := st.nextSalt, token := rt }) }) ∧
    (setCurrentRefreshToken st rt id).cfg = st.cfg ∧
    (setCurrentRefreshToken st rt id).cache = st.cache := by
  have hwq : (w.id == id) = true := by
    simpa using List.find?_some (p := fun u => u.id == id) (l := st.users) h
  have heq : setCurrentRefreshToken st rt id
      = (usersUpdate { st with nextSalt := st.nextSalt + 1 } id
          { refreshToken := some (some { salt := st.nextSalt, token := rt }) }).2 := rfl
  have hfound := usersUpdate_found { st with nextSalt := st.nextSalt + 1 } id
    { refreshToken := some (some { salt := st.nextSalt, token := rt }) } w h
  rw [heq, hfound]
  refine ⟨?_, rfl, rfl⟩
  exact find_id_map_update _ _ _ (by simpa [applyPatch_id] using hwq) _ h

lemma signin_spec (st : AppState) (id : Nat) (role : String) (t : Nat) (w : User)
    (h : st.users.find? (fun u => u.id == id) = some w) :
    (signin st id role t).1.refreshToken
        = jwtSign { sub := id, role := role } st.cfg.refresh_secret
            st.cfg.refresh_expiresIn t ∧
    (signin st id role t).2.users.find? (fun u => u.id == id)
        = some (applyPatch w { refreshToken := some (some
            { salt := st.nextSalt,
              token := jwtSign { sub := id, role := role } st.cfg.refresh_secret
                st.cfg.refresh_expiresIn t }) }) ∧
    (signin st id role t).2.cfg = st.cfg := by
  obtain ⟨h1, h2, _⟩ := setCurrentRefreshToken_spec st
    (jwtSign { sub := id, role := role } st.cfg.refresh_secret
      st.cfg.refresh_expiresIn t) id w h
  exact ⟨rfl, h1, h2⟩

lemma createAccess_of_stored (st : AppState) (t : Token) (t₃ : Nat) (w : User)
    (h : st.users.find? (fun u => u.id == t.sub) = some w) (rh : RHash)
    (hw : w.refreshToken = some rh) :
    (createAccessTokenFromRefreshToken st t t₃).1 =
      if rh.token == t then
        .ok (jwtSign { sub := w.id, role := w.role } st.cfg.access_secret
          st.cfg.access_expiresIn t₃)
      else .error (.notFound "Invalid token") := by
  by_cases hc : (rh.token == t) = true
  · simp [createAccessTokenFromRefreshToken, jwtDecode, usersFindOne, h, hw,
      bcryptCompareToken, hc, getTokens, getTokenOption]
  · simp [createAccessTokenFromRefreshToken, jwtDecode, usersFindOne, h, hw,
      bcryptCompareToken, hc, getTokens, getTokenOption]

lemma createAccess_frame (st : AppState) (t : Token) (t₃ : Nat) :
    (createAccessTokenFromRefreshToken st t t₃).2.users = st.users ∧
    (createAccessTokenFromRefreshToken st t t₃).2.cache = st.cache ∧
    (createAccessTokenFromRefreshToken st t t₃).2.cfg = st.cfg ∧
    (createAccessTokenFromRefreshToken st t t₃).2.nextSalt = st.nextSalt := by
  cases h : st.users.find? fun u => u.id == t.sub with
  | none => simp [createAccessTokenFromRefreshToken, jwtDecode, usersFindOne, h]
  | some w =>
    cases hw : w.refreshToken with
    | none => simp [createAccessTokenFromRefreshToken, jwtDecode, usersFindOne, h, hw]
    | some rh =>
      by_cases hc : (bcryptCompareToken t rh) = true <;>
        simp [createAccessTokenFromRefreshToken, jwtDecode, usersFindOne, h, hw, hc]

lemma createAccess_ok_inv (st : AppState) (t : Token) (t₃ : Nat) (a : Token)
    (h : (createAccessTokenFromRefreshToken st t t₃).1 = .ok a) :
    ∃ w rh, st.users.find? (fun u => u.id == t.sub) = some w ∧
      w.refreshToken = some rh ∧ (rh.token == t) = true := by
  cases hf : st.users.find? (fun u => u.id == t.sub) with
  | none =>
    simp [createAccessTokenFromRefreshToken, jwtDecode, usersFindOne, hf] at h
  | some w =>
    cases hw : w.refreshToken with
    | none =>
      simp [createAccessTokenFromRefreshToken, jwtDecode, usersFindOne, hf, hw] at h
    | some rh =>
      by_cases hc : (bcryptCompareToken t rh) = true
      · exact ⟨w, rh, rfl, hw, hc⟩
      · simp [createAccessTokenFromRefreshToken, jwtDecode, usersFindOne, hf, hw, hc] at h

/-! ## Helper lemmas about stores with distinct ids -/

lemma find_id_eq_self (l : List User) (hnd : (l.map User.id).Nodup) (u : User)
    (hu : u ∈ l) : l.find? (fun v => v.id == u.id) = some u := by
  induction l with
  | nil => simp at hu
  | cons a l ih =>
    rcases List.mem_cons.mp hu with rfl | hmem
    · simp [List.find?]
    · have hane : a.id ≠ u.id := by
        have : a.id ∉ l.map User.id := (List.nodup_cons.mp hnd).1
        intro he
        exact this (he ▸ List.mem_map_of_mem User.id hmem)
      have ha : (a.id == u.id) = false := beq_eq_false_iff_ne.mpr hane
      simp only [List.find?, ha]
      exact ih (List.nodup_cons.mp hnd).2 hmem

lemma find_email_map_update (l : List User) (e : String) (u : User)
    (hnd : (l.map User.id).Nodup)
    (hu : l.find? (fun v => v.email == e) = some u)
    (w' : User) (hem : w'.email = u.email) :
    (l.map fun v => if v.id == u.id then w' else v).find? (fun v => v.email == e)
      = some w' := by
  induction l with
  | nil => simp at hu
  | cons a l ih =>
    by_cases he : (a.email == e) = true
    · have hau : a = u := by
        have := List.find?_cons_of_pos (p := fun v => v.email == e) l he
        rw [this] at hu
        exact Option.some.inj hu
      subst hau
      simp only [List.map_cons, beq_self_eq_true, if_true]
      have : (w'.email == e) = true := by rw [hem]; exact he
      simp [List.find?, this]
    · have he' : (a.email == e) = false := by simpa using he
      rw [List.find?_cons_of_neg (p := fun v => v.email == e) l he] at hu
      have hmem : u ∈ l := List.mem_of_find?_eq_some hu
      have hane : a.id ≠ u.id := by
        have : a.id ∉ l.map User.id := (List.nodup_cons.mp hnd).1
        intro hx
        exact this (hx ▸ List.mem_map_of_mem User.id hmem)
      have ha : (a.id == u.id) = false := beq_eq_false_iff_ne.mpr hane
      simp only [List.map_cons, ha, Bool.false_eq_true, if_false, List.find?, he']
      exact ih (List.nodup_cons.mp hnd).2 hu

/-! ## Helper lemmas about the cache -/

lemma filter_ne_then_eq (l : List (String × String × Nat)) (k : String) :
    (l.filter fun e => e.1 != k).filter (fun e => e.1 == k) = [] := by
  induction l with
  | nil => rfl
  | cons a l ih =>
    by_cases ha : (a.1 == k) = true
    · simp [List.filter_cons, bne, ha, ih]
    · have ha' : (a.1 == k) = false := by simpa using ha
      simp [List.filter_cons, bne, ha', ih]

lemma filter_set_key (c : Cache) (k v : String) (ttl now : Nat) :
    ((c.set k v ttl now).entries.filter fun e => e.1 == k) = [(k, v, now + ttl)] := by
  simp [Cache.set, List.filter_cons, filter_ne_then_eq c.entries k]

lemma cache_get_del (c : Cache) (k : String) (now : Nat) :
    (c.del k).get k now = none := by
  have hnone : (List.find? (fun e => e.1 == k && decide (now < e.2.2))
      (c.entries.filter fun e => e.1 != k)) = none := by
    rw [List.find?_eq_none]
    intro a ha
    have hbne : (a.1 != k) = true := (List.mem_filter.mp ha).2
    simp only [bne] at hbne
    have hak : (a.1 == k) = false := by
      cases hx : (a.1 == k) <;> simp [hx] at hbne ⊢
    simp [hak]
  simp [Cache.del, Cache.get, hnone]

/-! ## Helper lemmas about password hashes -/

lemma PHash_render_ne_input (h : PHash) : h.render ≠ h.input := by
  intro he
  have hlen := congrArg String.length he
  rw [PHash.render] at hlen
  rw [String.length_append, String.length_append, String.length_append] at hlen
  have h7 : ("bcrypt$" : String).length = 7 := rfl
  have h1 : ("$" : String).length = 1 := rfl
  rw [h7, h1] at hlen
  omega

/-! ## Helper lemmas about the email regex and uppercase input -/

lemma upper_char_classes (c : Char) (h : isUpperAlpha c = true) :
    isLocalChar c = false ∧ isDomainChar c = false ∧ isLowerAlpha c = false := by
  have h1 : 65 ≤ c.toNat ∧ c.toNat ≤ 90 := by
    simpa [isUpperAlpha, Bool.and_eq_true, decide_eq_true_eq] using h
  have hne : ∀ d : Char, d.toNat < 65 ∨ 90 < d.toNat → (c == d) = false := by
    intro d hd
    rw [beq_eq_false_iff_ne]
    intro he
    rw [he] at h1
    omega
  have hlow : isLowerAlpha c = false := by
    simp only [isLowerAlpha, Bool.and_eq_false_iff, decide_eq_false_iff_not]
    left; omega
  have hdig : isDigitCh c = false := by
    simp only [isDigitCh, Bool.and_eq_false_iff, decide_eq_false_iff_not]
    right; omega
  have hdot : (c == '.') = false := hne '.' (by left; decide)
  have hund : (c == '_') = false := hne '_' (by right; decide)
  have hpct : (c == '%') = false := hne '%' (by left; decide)
  have hpls : (c == '+') = false := hne '+' (by left; decide)
  have hmin : (c == '-') = false := hne '-' (by left; decide)
  refine ⟨?_, ?_, hlow⟩
  · simp [isLocalChar, hlow, hdig, hdot, hund, hpct, hpls, hmin]
  · simp [isDomainChar, hlow, hdig, hdot, hmin]

lemma restOk_chars (cs : List Char) (h : restOk cs = true) (c : Char)
    (hc : c ∈ cs) : isDomainChar c = true ∨ isLowerAlpha c = true := by
  rw [restOk] at h
  obtain ⟨i, hi, hcond⟩ := List.any_eq_true.mp h
  have hil : i < cs.length := List.mem_range.mp hi
  obtain ⟨⟨hgi, hdom⟩, htld⟩ :
      (cs[i]? = some '.' ∧ domainOk (cs.take i) = true) ∧
        tldOk (cs.drop (i + 1)) = true := by
    simpa [Bool.and_eq_true] using hcond
  have hdrop : cs.drop i = '.' :: cs.drop (i + 1) := by
    rw [List.drop_eq_getElem_cons hil]
    congr 1
    have h2 := List.getElem?_eq_getElem hil
    rw [hgi] at h2
    exact (Option.some.inj h2).symm
  have hsplit : c ∈ cs.take i ++ cs.drop i := by
    rw [List.take_append_drop]; exact hc
  rcases List.mem_append.mp hsplit with hin | hin
  · left
    have hall : (cs.take i).all isDomainChar = true := by
      have := hdom
      simp only [domainOk, Bool.and_eq_true] at this
      exact this.2
    exact List.all_eq_true.mp hall c hin
  · rw [hdrop] at hin
    rcases List.mem_cons.mp hin with rfl | hin2
    · left; decide
    · right
      have hall : (cs.drop (i + 1)).all isLowerAlpha = true := by
        simp only [tldOk, Bool.and_eq_true] at htld
        exact htld.2
      exact List.all_eq_true.mp hall c hin2

lemma emailMatches_false_of_upper (email : String) (c : Char)
    (hc : c ∈ email.data) (hup : isUpperAlpha c = true) :
    emailMatches email = false := by
  obtain ⟨hlocF, hdomF, hlowF⟩ := upper_char_classes c hup
  by_contra hne
  rw [Bool.not_eq_false] at hne
  rw [emailMatches] at hne
  obtain ⟨i, hi, hcond⟩ := List.any_eq_true.mp hne
  have hil : i < email.data.length := List.mem_range.mp hi
  obtain ⟨⟨hgi, hloc⟩, hrest⟩ :
      (email.data[i]? = some '@' ∧ localOk (email.data.take i) = true) ∧
        restOk (email.data.drop (i + 1)) = true := by
    simpa [Bool.and_eq_true] using hcond
  have hdrop : email.data.drop i = '@' :: email.data.drop (i + 1) := by
    rw [List.drop_eq_getElem_cons hil]
    congr 1
    have h2 := List.getElem?_eq_getElem hil
    rw [hgi] at h2
    exact (Option.some.inj h2).symm
  have hsplit : c ∈ email.data.take i ++ email.data.drop i := by
    rw [List.take_append_drop]; exact hc
  rcases List.mem_append.mp hsplit with hin | hin
  · have hall : (email.data.take i).all isLocalChar = true := by
      simp only [localOk, Bool.and_eq_true] at hloc
      exact hloc.2
    have := List.all_eq_true.mp hall c hin
    rw [hlocF] at this
    exact Bool.false_ne_true this
  · rw [hdrop] at hin
    rcases List.mem_cons.mp hin with rfl | hin2
    · have : isUpperAlpha '@' = true := hup
      exact absurd this (by decide)
    · rcases restOk_chars _ hrest c hin2 with hd | hl
      · rw [hdomF] at hd; exact Bool.false_ne_true hd
      · rw [hlowF] at hl; exact Bool.false_ne_true hl

/-! ## Helper lemmas about the resetPassword paths -/

lemma resetPassword_totp_fail (st : AppState) (email otp npw : String) (now : Nat)
    (u : User) (hm : emailMatches email = true)
    (hu : st.users.find? (fun v => v.email == toLowerCase email) = some u)
    (htc : totpCheck otp st.cfg.otp_secret now = false) :
    (resetPassword st email otp npw now).1
      = .error (.notFound "Invalid OTP or OTP has expired") := by
  simp [resetPassword, validateEmail, hm, usersFindByEmail, hu,
    verifyResetPasswordOtp, htc]

lemma resetPassword_cache_fail (st : AppState) (email otp npw : String) (now : Nat)
    (u : User) (hm : emailMatches email = true)
    (hu : st.users.find? (fun v => v.email == toLowerCase email) = some u)
    (htc : totpCheck otp st.cfg.otp_secret now = true)
    (hcg : st.cache.get (toString u.id ++ ":otp") now ≠ some otp) :
    (resetPassword st email otp npw now).1 = .error (.notFound "Invalid OTP") := by
  simp [resetPassword, validateEmail, hm, usersFindByEmail, hu,
    verifyResetPasswordOtp, htc, hcg]

lemma resetPassword_success (st : AppState) (email otp npw : String) (now : Nat)
    (u w : User) (hm : emailMatches email = true)
    (hu : st.users.find? (fun v => v.email == toLowerCase email) = some u)
    (hw : st.users.find? (fun v => v.id == u.id) = some w)
    (htc : totpCheck otp st.cfg.otp_secret now = true)
    (hcg : st.cache.get (toString u.id ++ ":otp") now = some otp)
    (hnp : (npw == "") = false) :
    (resetPassword st email otp npw now).1
      = .ok (applyPatch w { password := some (some
          { salt := st.nextSalt, input := npw }) }) ∧
    (resetPassword st email otp npw now).2.users
      = st.users.map (fun v => if v.id == u.id then
          applyPatch w { password := some (some
            { salt := st.nextSalt, input := npw }) } else v) ∧
    (resetPassword st email otp npw now).2.cache
      = st.cache.del (toString u.id ++ ":otp") ∧
    (resetPassword st email otp npw now).2.cfg = st.cfg := by
  refine ⟨?_, ?_, ?_, ?_⟩ <;>
    simp [resetPassword, validateEmail, hm, usersFindByEmail, hu,
      verifyResetPasswordOtp, htc, hcg, hashPassword, hnp, usersUpdate, hw]

/-! ## Claim theorems -/

/-- C1: two successive signin calls for the same user (at distinct
issue instants) produce different refresh tokens; afterwards
createAccessTokenFromRefreshToken rejects the first token with
NotFoundException and accepts the second, and any presented token for
this user that it accepts IS the second token — the record holds at most
one matchable refresh-token hash. -/
theorem C1_refresh_rotation (st : AppState) (id : Nat) (role : String)
    (t₁ t₂ t₃ : Nat) (w : User) (hne : t₁ ≠ t₂)
    (h : st.users.find? (fun u => u.id == id) = some w) :
    (signin st id role t₁).1.refreshToken
        ≠ (signin (signin st id role t₁).2 id role t₂).1.refreshToken ∧
    (createAccessTokenFromRefreshToken (signin (signin st id role t₁).2 id role t₂).2
        (signin st id role t₁).1.refreshToken t₃).1
      = .error (.notFound "Invalid token") ∧
    (∃ a, (createAccessTokenFromRefreshToken (signin (signin st id role t₁).2 id role t₂).2
        (signin (signin st id role t₁).2 id role t₂).1.refreshToken t₃).1 = .ok a) ∧
    (∀ tk : Token, tk.sub = id →
      (∃ a, (createAccessTokenFromRefreshToken (signin (signin st id role t₁).2 id role t₂).2
          tk t₃).1 = .ok a) →
      tk = (signin (signin st id role t₁).2 id role t₂).1.refreshToken) := by
  obtain ⟨hr₁, hf₁, hc₁⟩ := signin_spec st id role t₁ w h
  obtain ⟨hr₂, hf₂, hc₂⟩ := signin_spec (signin st id role t₁).2 id role t₂ _ hf₁
  have hrne : (signin st id role t₁).1.refreshToken
      ≠ (signin (signin st id role t₁).2 id role t₂).1.refreshToken := by
    rw [hr₁, hr₂, hc₁]
    intro he
    exact hne (congrArg Token.iat he)
  have hstored : ((signin (signin st id role t₁).2 id role t₂).2.users.find?
      fun u => u.id == id) = some (applyPatch
        (applyPatch w { refreshToken := some (some
          { salt := st.nextSalt,
            token := jwtSign { sub := id, role := role } st.cfg.refresh_secret
              st.cfg.refresh_expiresIn t₁ }) })
        { refreshToken := some (some
          { salt := (signin st id role t₁).2.nextSalt,
            token := (signin (signin st id role t₁).2 id role t₂).1.refreshToken }) }) := by
    rw [hf₂, hr₂]
  have hkey : ∀ tk : Token, tk.sub = id →
      (createAccessTokenFromRefreshToken (signin (signin st id role t₁).2 id role t₂).2
          tk t₃).1
        = if ((signin (signin st id role t₁).2 id role t₂).1.refreshToken == tk) then
            .ok (jwtSign { sub := w.id, role := w.role }
              (signin (signin st id role t₁).2 id role t₂).2.cfg.access_secret
              (signin (signin st id role t₁).2 id role t₂).2.cfg.access_expiresIn t₃)
          else .error (.notFound "Invalid token") := by
    intro tk hsub
    have hst : ((signin (signin st id role t₁).2 id role t₂).2.users.find?
        fun u => u.id == tk.sub) = some (applyPatch
          (applyPatch w { refreshToken := some (some
            { salt := st.nextSalt,
              token := jwtSign { sub := id, role := role } st.cfg.refresh_secret
                st.cfg.refresh_expiresIn t₁ }) })
          { refreshToken := some (some
            { salt := (signin st id role t₁).2.nextSalt,
              token := (signin (signin st id role t₁).2 id role t₂).1.refreshToken }) }) := by
      rw [hsub]; exact hstored
    exact createAccess_of_stored _ tk t₃ _ hst _ rfl
  refine ⟨hrne, ?_, ?_, ?_⟩
  · have hsub₁ : (signin st id role t₁).1.refreshToken.sub = id := by
      rw [hr₁]
      rfl
    rw [hkey _ hsub₁]
    have : ((signin (signin st id role t₁).2 id role t₂).1.refreshToken
        == (signin st id role t₁).1.refreshToken) = false :=
      beq_eq_false_iff_ne.mpr (Ne.symm hrne)
    rw [this]
    simp
  · have hsub₂ : (signin (signin st id role t₁).2 id role t₂).1.refreshToken.sub = id := by
      rw [hr₂]
      rfl
    rw [hkey _ hsub₂, beq_self_eq_true]
    simp
  · intro tk hsub ⟨a, ha⟩
    rw [hkey _ hsub] at ha
    by_cases hb : ((signin (signin st id role t₁).2 id role t₂).1.refreshToken == tk) = true
    · exact (eq_of_beq hb).symm
    · rw [Bool.not_eq_true] at hb
      rw [hb] at ha
      simp at ha

/-- C1 witness: the scenario at a concrete state, user and instants. -/
theorem C1_refresh_rotation_witness :
    (signin sampleState 1 "user" 100).1.refreshToken
        ≠ (signin (signin sampleState 1 "user" 100).2 1 "user" 200).1.refreshToken ∧
    (createAccessTokenFromRefreshToken
        (signin (signin sampleState 1 "user" 100).2 1 "user" 200).2
        (signin sampleState 1 "user" 100).1.refreshToken 300).1
      = .error (.notFound "Invalid token") ∧
    (∃ a, (createAccessTokenFromRefreshToken
        (signin (signin sampleState 1 "user" 100).2 1 "user" 200).2
        (signin (signin sampleState 1 "user" 100).2 1 "user" 200).1.refreshToken 300).1
      = .ok a) ∧
    (∀ tk : Token, tk.sub = 1 →
      (∃ a, (createAccessTokenFromRefreshToken
          (signin (signin sampleState 1 "user" 100).2 1 "user" 200).2 tk 300).1 = .ok a) →
      tk = (signin (signin sampleState 1 "user" 100).2 1 "user" 200).1.refreshToken) :=
  C1_refresh_rotation sampleState 1 "user" 100 200 300 sampleUser
    (by decide) (by decide)

/-- C8: createAccessTokenFromRefreshToken leaves the user store, the
cache and the salt counter untouched on every path, and after a
successful call the very same refresh token is still accepted by a
subsequent call. -/
theorem C8_no_rotation_on_refresh (st : AppState) (rt : Token) (now now' : Nat) :
    (createAccessTokenFromRefreshToken st rt now).2.users = st.users ∧
    (createAccessTokenFromRefreshToken st rt now).2.cache = st.cache ∧
    (createAccessTokenFromRefreshToken st rt now).2.nextSalt = st.nextSalt ∧
    (∀ a, (createAccessTokenFromRefreshToken st rt now).1 = .ok a →
      ∃ b, (createAccessTokenFromRefreshToken
        (createAccessTokenFromRefreshToken st rt now).2 rt now').1 = .ok b) := by
  obtain ⟨hus, hca, hcf, hsa⟩ := createAccess_frame st rt now
  refine ⟨hus, hca, hsa, ?_⟩
  intro a ha
  obtain ⟨w, rh, hfw, hwrt, hcmp⟩ := createAccess_ok_inv st rt now a ha
  have hfw' : (createAccessTokenFromRefreshToken st rt now).2.users.find?
      (fun u => u.id == rt.sub) = some w := by rw [hus]; exact hfw
  have := createAccess_of_stored (createAccessTokenFromRefreshToken st rt now).2
    rt now' w hfw' rh hwrt
  rw [hcmp] at this
  rw [this]
  simp

/-- C8 witness: after a signin, refreshing twice in a row succeeds both
times and the store is untouched by the first refresh. -/
theorem C8_no_rotation_on_refresh_witness :
    ((createAccessTokenFromRefreshToken (signin sampleState 1 "user" 100).2
        (signin sampleState 1 "user" 100).1.refreshToken 300).2.users
      = (signin sampleState 1 "user" 100).2.users) ∧
    ((createAccessTokenFromRefreshToken (signin sampleState 1 "user" 100).2
        (signin sampleState 1 "user" 100).1.refreshToken 300).2.cache
      = (signin sampleState 1 "user" 100).2.cache) ∧
    ((createAccessTokenFromRefreshToken (signin sampleState 1 "user" 100).2
        (signin sampleState 1 "user" 100).1.refreshToken 300).2.nextSalt
      = (signin sampleState 1 "user" 100).2.nextSalt) ∧
    (∀ a, (createAccessTokenFromRefreshToken (signin sampleState 1 "user" 100).2
        (signin sampleState 1 "user" 100).1.refreshToken 300).1 = .ok a →
      ∃ b, (createAccessTokenFromRefreshToken
        (createAccessTokenFromRefreshToken (signin sampleState 1 "user" 100).2
          (signin sampleState 1 "user" 100).1.refreshToken 300).2
        (signin sampleState 1 "user" 100).1.refreshToken 400).1 = .ok b) :=
  C8_no_rotation_on_refresh (signin sampleState 1 "user" 100).2
    (signin sampleState 1 "user" 100).1.refreshToken 300 400

/-- C2 counterexample: with the user argument missing (and likewise with
the token missing), the caller observes InternalServerErrorException,
not the NotFoundException the claim asserts — the guard's
NotFoundException is swallowed by the surrounding try/catch. -/
theorem C2_counterexample :
    (signout sampleState none (some sampleToken)).1 = .error .internal ∧
    (signout sampleState (some { user := none }) (some sampleToken)).1
      = .error .internal ∧
    (signout sampleState (some { user := some sampleUser }) none).1
      = .error .internal ∧
    (signout sampleState none (some sampleToken)).1
      ≠ .error (.notFound "User not found") := by
  decide

/-- C2 (amended): whenever the user or the token argument is missing,
signout fails — but with InternalServerErrorException: the internal
NotFoundException (or the TypeError of destructuring a missing reqUser)
is converted by the catch block before reaching the caller. -/
theorem C2_missing_user_or_token (st : AppState) (reqUser : Option ReqUser)
    (token : Option Token)
    (h : reqUser = none ∨ (∃ r, reqUser = some r ∧ r.user = none) ∨ token = none) :
    (signout st reqUser token).1 = .error .internal ∧
    (signout st reqUser token).2 = st := by
  rcases h with rfl | ⟨r, rfl, hu⟩ | rfl
  · exact ⟨rfl, rfl⟩
  · obtain ⟨ru⟩ := r
    cases ru with
    | none => cases token <;> exact ⟨rfl, rfl⟩
    | some u => simp at hu
  · cases reqUser with
    | none => exact ⟨rfl, rfl⟩
    | some r =>
      obtain ⟨ru⟩ := r
      cases ru <;> exact ⟨rfl, rfl⟩

/-- C2 witness: the amended theorem at a concrete missing-user call. -/
theorem C2_missing_user_or_token_witness :
    (signout sampleState none (some sampleToken)).1 = .error .internal ∧
    (signout sampleState none (some sampleToken)).2 = sampleState :=
  C2_missing_user_or_token sampleState none (some sampleToken) (Or.inl rfl)

/-- C3: resetPassword on a well-formed email with no user record does
NOT fail with NotFoundException: the missing null-check makes the
`user.id` argument expression dereference null, surfacing a TypeError
(an internal error), before any OTP verification. -/
theorem C3_missing_user_not_notFound :
    (resetPassword sampleState "ghost@example.com" "123456" "np" 1000).1
      = .error .typeError ∧
    (resetPassword sampleState "ghost@example.com" "123456" "np" 1000).1
      ≠ .error (.notFound "User not found") ∧
    emailMatches "ghost@example.com" = true ∧
    sampleState.users.find? (fun v => v.email == "ghost@example.com") = none := by
  decide

/-- C5 counterexample: a signup whose email is fresh but whose password
is empty does not succeed — hashPassword throws its plain `Error`, so
the claim's "for every input with a fresh email, signup succeeds" fails
at this input. -/
theorem C5_counterexample :
    sampleState.users.find? (fun v => v.email == "new@user.io") = none ∧
    (signup sampleState { email := "new@user.io", password := "", role := "user" }).1
      = .error (.jsError "Password is required for hashing.") := by
  decide

/-- C5 (amended): signup on a taken email fails with ConflictException
and creates no record; signup on a fresh email with a nonempty password
succeeds, stores the bcrypt hash of the password (whose rendered string
is never the plaintext), and returns the user with the password field
scrubbed. -/
theorem C5_signup (st : AppState) (dto : CreateUserDto) :
    ((st.users.find? (fun v => v.email == dto.email)).isSome = true →
      (signup st dto).1 = .error (.conflict "User already exists") ∧
      (signup st dto).2.users = st.users) ∧
    (st.users.find? (fun v => v.email == dto.email) = none → dto.password ≠ "" →
      (signup st dto).1 = .ok
        { id := st.nextId, email := dto.email,
          password := none, role := dto.role, refreshToken := none } ∧
      (signup st dto).2.users = st.users ++
        [{ id := st.nextId, email := dto.email,
           password := some { salt := st.nextSalt, input := dto.password },
           role := dto.role, refreshToken := none }] ∧
      PHash.render { salt := st.nextSalt, input := dto.password }
        ≠ dto.password) := by
  constructor
  · intro hex
    obtain ⟨u, hu⟩ := Option.isSome_iff_exists.mp hex
    constructor <;> simp [signup, usersFindByEmail, hu]
  · intro hnone hnp
    have hnp' : (dto.password == "") = false := beq_eq_false_iff_ne.mpr hnp
    refine ⟨?_, ?_, PHash_render_ne_input _⟩ <;>
      simp [signup, usersFindByEmail, hnone, hashPassword, hnp', usersCreate]

/-- C5 witness: both branches of the amended signup theorem at concrete
inputs. -/
theorem C5_signup_witness :
    ((sampleState.users.find? (fun v =>
        v.email == "user@example.com")).isSome = true ∧
      (signup sampleState
        { email := "user@example.com", password := "x",
          role := "user" }).1 = .error (.conflict "User already exists")) ∧
    (sampleState.users.find? (fun v => v.email == "new@user.io") = none ∧
      (signup sampleState
        { email := "new@user.io", password := "secret",
          role := "user" }).1 = .ok
        { id := 2, email := "new@user.io",
          password := none, role := "user", refreshToken := none }) :=
  ⟨⟨by decide,
    ((C5_signup sampleState
      { email := "user@example.com", password := "x",
        role := "user" }).1 (by decide)).1⟩,
   ⟨by decide,
    ((C5_signup sampleState
      { email := "new@user.io", password := "secret",
        role := "user" }).2 (by decide) (by decide)).1⟩⟩

/-- C6: a successful forgotPassword returns the TOTP code and leaves
exactly one live cache entry under the key {userId}:otp, holding that
code with a 300-second time-to-live — any prior OTP entry for the user
is gone. -/
theorem C6_single_live_otp (st : AppState) (email : String) (now : Nat) (u : User)
    (hm : emailMatches email = true)
    (hu : st.users.find? (fun v => v.email == toLowerCase email) = some u) :
    (forgotPassword st email now).1 = .ok (totpGenerate st.cfg.otp_secret now) ∧
    (forgotPassword st email now).2.cache.entries.filter
        (fun e => e.1 == toString u.id ++ ":otp")
      = [(toString u.id ++ ":otp", totpGenerate st.cfg.otp_secret now, now + 300)] := by
  by_cases he : (st.cache.existsKey (toString u.id ++ ":otp") now) = true <;>
    constructor <;>
      simp [forgotPassword, validateEmail, hm, usersFindByEmail, hu,
        generateResetPasswordOtp, he, filter_set_key]

/-- C6 witness: the concrete fixture user requests an OTP. -/
theorem C6_single_live_otp_witness :
    (forgotPassword sampleState "user@example.com" 1000).1
      = .ok (totpGenerate sampleState.cfg.otp_secret 1000) ∧
    (forgotPassword sampleState "user@example.com" 1000).2.cache.entries.filter
        (fun e => e.1 == toString sampleUser.id ++ ":otp")
      = [(toString sampleUser.id ++ ":otp",
          totpGenerate sampleState.cfg.otp_secret 1000, 1000 + 300)] :=
  C6_single_live_otp sampleState "user@example.com" 1000 sampleUser
    (by decide) (by decide)

/-- C7: a malformed email makes forgotPassword fail with
NotFoundException('Invalid email') leaving the state — in particular the
event trace, hence the set of store lookups performed — unchanged. -/
theorem C7_malformed_email_no_lookup (st : AppState) (email : String) (now : Nat)
    (h : emailMatches email = false) :
    forgotPassword st email now = (.error (.notFound "Invalid email"), st) ∧
    (forgotPassword st email now).2.trace = st.trace := by
  have heq : forgotPassword st email now
      = (.error (.notFound "Invalid email"), st) := by
    simp [forgotPassword, validateEmail, h]
  exact ⟨heq, by rw [heq]⟩

/-- C7 witness: the spec's own example input. -/
theorem C7_malformed_email_no_lookup_witness :
    forgotPassword sampleState "not-an-email" 0
      = (.error (.notFound "Invalid email"), sampleState) ∧
    (forgotPassword sampleState "not-an-email" 0).2.trace = sampleState.trace :=
  C7_malformed_email_no_lookup sampleState "not-an-email" 0 (by decide)

/-- C9: a successful resetPassword returns the updated record with the
password field still populated, holding the bcrypt hash of the new
password — no scrubbing on this path. -/
theorem C9_reset_returns_password_hash (st : AppState) (email otp npw : String)
    (now : Nat) (u : User)
    (hm : emailMatches email = true)
    (hu : st.users.find? (fun v => v.email == toLowerCase email) = some u)
    (htc : totpCheck otp st.cfg.otp_secret now = true)
    (hcg : st.cache.get (toString u.id ++ ":otp") now = some otp)
    (hnp : npw ≠ "") :
    ∃ r : User, (resetPassword st email otp npw now).1 = .ok r ∧
      r.password = some { salt := st.nextSalt, input := npw } := by
  obtain ⟨w, hw⟩ := find_id_exists_of_mem st.users u (find_email_mem _ _ _ hu)
  obtain ⟨h1, -, -, -⟩ := resetPassword_success st email otp npw now u w hm hu hw
    htc hcg (beq_eq_false_iff_ne.mpr hnp)
  exact ⟨_, h1, rfl⟩

/-- C9 witness: forgotPassword then resetPassword with the issued code;
the returned record's password field holds the new hash. -/
theorem C9_reset_returns_password_hash_witness :
    ∃ r : User,
      (resetPassword (forgotPassword sampleState "user@example.com" 1000).2
        "user@example.com" (totpGenerate sampleCfg.otp_secret 1000)
        "newpw" 1000).1 = .ok r ∧
      r.password = some
        { salt := (forgotPassword sampleState "user@example.com" 1000).2.nextSalt,
          input := "newpw" } :=
  C9_reset_returns_password_hash (forgotPassword sampleState "user@example.com" 1000).2
    "user@example.com" (totpGenerate sampleCfg.otp_secret 1000) "newpw" 1000
    sampleUser (by decide) (by decide) (by decide) (by decide) (by decide)

/-- C4: with an existing user (distinct record ids), resetPassword
accepts the OTP exactly when it passes the TOTP window check AND equals
the cached value; failing either check yields a NotFoundException; and
after a success the cached entry is consumed, so the immediately
repeated call fails with NotFoundException('Invalid OTP'). -/
theorem C4_otp_double_check_and_consume (st : AppState) (email otp npw : String)
    (now : Nat) (u : User)
    (hnd : (st.users.map User.id).Nodup)
    (hm : emailMatches email = true)
    (hu : st.users.find? (fun v => v.email == toLowerCase email) = some u)
    (hnp : npw ≠ "") :
    ((∃ r, (resetPassword st email otp npw now).1 = .ok r)
        ↔ (totpCheck otp st.cfg.otp_secret now = true ∧
           st.cache.get (toString u.id ++ ":otp") now = some otp)) ∧
    (¬(totpCheck otp st.cfg.otp_secret now = true ∧
        st.cache.get (toString u.id ++ ":otp") now = some otp) →
      ∃ m, (resetPassword st email otp npw now).1 = .error (.notFound m)) ∧
    ((totpCheck otp st.cfg.otp_secret now = true ∧
        st.cache.get (toString u.id ++ ":otp") now = some otp) →
      (resetPassword (resetPassword st email otp npw now).2 email otp npw now).1
        = .error (.notFound "Invalid OTP")) := by
  have hnp' : (npw == "") = false := beq_eq_false_iff_ne.mpr hnp
  have hw : st.users.find? (fun v => v.id == u.id) = some u :=
    find_id_eq_self st.users hnd u (find_email_mem _ _ _ hu)
  refine ⟨⟨?_, ?_⟩, ?_, ?_⟩
  · rintro ⟨r, hr⟩
    by_cases htc : totpCheck otp st.cfg.otp_secret now = true
    · by_cases hcg : st.cache.get (toString u.id ++ ":otp") now = some otp
      · exact ⟨htc, hcg⟩
      · rw [resetPassword_cache_fail st email otp npw now u hm hu htc hcg] at hr
        simp at hr
    · have htc' : totpCheck otp st.cfg.otp_secret now = false := by
        simpa using htc
      rw [resetPassword_totp_fail st email otp npw now u hm hu htc'] at hr
      simp at hr
  · rintro ⟨htc, hcg⟩
    obtain ⟨h1, -, -, -⟩ := resetPassword_success st email otp npw now u u hm hu hw
      htc hcg hnp'
    exact ⟨_, h1⟩
  · intro hnot
    by_cases htc : totpCheck otp st.cfg.otp_secret now = true
    · have hcg : st.cache.get (toString u.id ++ ":otp") now ≠ some otp :=
        fun hcg => hnot ⟨htc, hcg⟩
      exact ⟨_, resetPassword_cache_fail st email otp npw now u hm hu htc hcg⟩
    · have htc' : totpCheck otp st.cfg.otp_secret now = false := by
        simpa using htc
      exact ⟨_, resetPassword_totp_fail st email otp npw now u hm hu htc'⟩
  · rintro ⟨htc, hcg⟩
    obtain ⟨h1, hus, hcache, hcfg⟩ := resetPassword_success st email otp npw now u u
      hm hu hw htc hcg hnp'
    have hu₂ : (resetPassword st email otp npw now).2.users.find?
        (fun v => v.email == toLowerCase email)
        = some (applyPatch u { password := some (some
            { salt := st.nextSalt, input := npw }) }) := by
      rw [hus]
      exact find_email_map_update st.users (toLowerCase email) u hnd hu _ rfl
    have htc₂ : totpCheck otp (resetPassword st email otp npw now).2.cfg.otp_secret
        now = true := by rw [hcfg]; exact htc
    have hcg₂ : (resetPassword st email otp npw now).2.cache.get
        (toString (applyPatch u { password := some (some
          { salt := st.nextSalt, input := npw }) }).id ++ ":otp") now ≠ some otp := by
      rw [applyPatch_id, hcache, cache_get_del]
      simp
    exact resetPassword_cache_fail _ email otp npw now _ hm hu₂ htc₂ hcg₂

/-- C4 witness: after a real forgotPassword, the issued code passes both
checks and the immediately repeated resetPassword with the consumed code
fails with NotFoundException('Invalid OTP'). -/
theorem C4_otp_double_check_and_consume_witness :
    (resetPassword
      (resetPassword (forgotPassword sampleState "user@example.com" 1000).2
        "user@example.com" (totpGenerate sampleCfg.otp_secret 1000) "newpw" 1000).2
      "user@example.com" (totpGenerate sampleCfg.otp_secret 1000) "newpw" 1000).1
    = .error (.notFound "Invalid OTP") :=
  (C4_otp_double_check_and_consume
    (forgotPassword sampleState "user@example.com" 1000).2
    "user@example.com" (totpGenerate sampleCfg.otp_secret 1000) "newpw" 1000
    sampleUser (by decide) (by decide) (by decide) (by decide)).2.2
    ⟨by decide, by decide⟩

/-- C10: an email containing an uppercase letter never matches the
lowercase-only validation pattern, so forgotPassword and resetPassword
both fail with NotFoundException('Invalid email') and leave the state
(and its lookup trace) untouched — even when a user record exists under
the lowercased form of the address. -/
theorem C10_uppercase_email_rejected (st : AppState) (email : String)
    (now : Nat) (otp npw : String) (c : Char)
    (hc : c ∈ email.data) (hup : isUpperAlpha c = true)
    (_hlower : (st.users.find? (fun v =>
      v.email == toLowerCase email)).isSome = true) :
    emailMatches email = false ∧
    forgotPassword st email now = (.error (.notFound "Invalid email"), st) ∧
    resetPassword st email otp npw now
      = (.error (.notFound "Invalid email"), st) := by
  have hm := emailMatches_false_of_upper email c hc hup
  refine ⟨hm, ?_, ?_⟩ <;> simp [forgotPassword, resetPassword, validateEmail, hm]

/-- C10 witness: "User@example.com" is rejected although the fixture
user exists under "user@example.com". -/
theorem C10_uppercase_email_rejected_witness :
    emailMatches "User@example.com" = false ∧
    forgotPassword sampleState "User@example.com" 0
      = (.error (.notFound "Invalid email"), sampleState) ∧
    resetPassword sampleState "User@example.com" "123456" "npw" 0
      = (.error (.notFound "Invalid email"), sampleState) :=
  C10_uppercase_email_rejected sampleState "User@example.com" 0 "123456" "npw"
    'U' (by decide) (by decide) (by decide)

end SmoothTransact
